import Mathlib

/-
Verification of the PyPlanet generic `ListView` widget
(`pyplanet/views/generics/list.py`) and its session-state / event-router /
query-pipeline behaviour, as a shallow embedding in Lean.

Modelling conventions:
* The mutable instance attributes of a `ListView` object that form the
  per-widget session state (`search_text`, `sort_field`, `sort_order`,
  `page`, `count`, `objects`, `num_per_page`) are gathered in `ListState`.
  `sort_field` holds the name of the model column (the code stores the
  peewee field object obtained by `getattr(self.model, field['index'])`;
  fields are identified here by their column name, mirroring the
  `db_column` comparison in the code).
* Configuration attributes (`query`, `fields`, the result of
  `get_fields()`, `actions`) are gathered in `ListView`.  The base class
  `get_fields()` returns `self.fields`; a subclass may override it, so the
  embedding keeps `getFields` as a separate component.
* Column descriptor dictionaries become `Field`: `index` is `none` when
  the dict holds a null/empty index (`field['index']` falsy), `searching` /
  `sorting` model `'searching' in field and field['searching']` (resp.
  `sorting`), `hasAction` models the presence of an `'action'` entry.
* Peewee queries are modelled syntactically (`Query`): `orwhere` ORs a
  predicate into the WHERE clause (setting it when absent), `order_by`
  sets the ordering, `paginate` sets LIMIT/OFFSET.  `execQuery` gives the
  ORM semantics over a concrete table of rows, and `count` of a query is
  the length of its execution result.
* Python exceptions escaping a method are `Except.error`; values of
  `PyExn` name the exception class that is raised.
* Handlers attached to fields/actions are summarised by the external
  function `handler : Trigger → Nat → ρ → Except String Unit`, where an
  `Except.error` models an exception raised inside the user handler.
-/

namespace PyPlanet

/-- One column-descriptor dictionary of `ListView.fields`. -/
structure Field where
  name : String
  index : Option String
  searching : Bool
  sorting : Bool
  hasAction : Bool
deriving Repr, DecidableEq

/-- One action-descriptor dictionary of `ListView.actions`. -/
structure ActionDesc where
  name : String
  hasAction : Bool
deriving Repr, DecidableEq

/-- A WHERE-clause predicate of the query model.  `eq` stands for a
condition already present on the base query supplied by the host;
`contains` is the substring predicate produced by
`getattr(self.model, field['index']).contains(self.search_text)`. -/
inductive Pred where
  | eq (attr val : String)
  | contains (attr text : String)
  | or (p q : Pred)
deriving Repr, DecidableEq

/-- Syntactic peewee query: WHERE clause, ordering (column, ascending?) and
pagination (page, per-page). -/
structure Query where
  whereClause : Option Pred
  ordering : Option (String × Bool)
  pagination : Option (Nat × Nat)
deriving Repr, DecidableEq

/-- Source `query.orwhere(p)`: OR the predicate into the WHERE clause, or install
it when the query has no WHERE clause yet. -/
def Query.orwhere (q : Query) (p : Pred) : Query :=
  { q with whereClause :=
      match q.whereClause with
      | none => some p
      | some w => some (Pred.or w p) }

/-- Source `query.order_by(o)`. -/
def Query.order_by (q : Query) (o : String × Bool) : Query :=
  { q with ordering := some o }

/-- Source `query.paginate(page, num)`. -/
def Query.paginate (q : Query) (page num : Nat) : Query :=
  { q with pagination := some (page, num) }

/-- A database row / model instance: an association list from attribute
names to string values. -/
abbrev Row := List (String × String)

/-- Attribute access on a row (total model of the ORM's column access). -/
def rowAttr (r : Row) (a : String) : String :=
  ((r.find? (fun kv => kv.1 == a)).map (fun kv => kv.2)).getD ""

/-- Is `pat` a contiguous sublist of `s`?  (substring containment, the
semantics of the SQL `LIKE %text%` produced by `.contains`). -/
def containsSub (pat : List Char) : List Char → Bool
  | [] => pat.isPrefixOf []
  | c :: cs => pat.isPrefixOf (c :: cs) || containsSub pat cs

/-- Substring containment on strings. -/
def strContains (s pat : String) : Bool :=
  containsSub pat.toList s.toList

/-- Evaluate a predicate on a row. -/
def Pred.eval (r : Row) : Pred → Bool
  | Pred.eq a v => rowAttr r a == v
  | Pred.contains a t => strContains (rowAttr r a) t
  | Pred.or p q => p.eval r || q.eval r

/-- Insert a row into a list sorted on attribute `key` (ascending when
`asc`).  Part of the ORM ordering semantics. -/
def insertRow (key : String) (asc : Bool) (r : Row) : List Row → List Row
  | [] => [r]
  | x :: xs =>
    if (if asc then decide (rowAttr r key ≤ rowAttr x key)
        else decide (rowAttr x key ≤ rowAttr r key)) then
      r :: x :: xs
    else
      x :: insertRow key asc r xs

/-- ORM ordering semantics: insertion sort on the order-by column. -/
def sortRows (key : String) (asc : Bool) (rows : List Row) : List Row :=
  rows.foldr (insertRow key asc) []

/-- ORM execution semantics of a query over a table `src`:
WHERE-filtering, then ordering, then LIMIT/OFFSET slicing
(`LIMIT per OFFSET (page-1)*per`). -/
def execQuery (src : List Row) (q : Query) : List Row :=
  let filtered :=
    match q.whereClause with
    | none => src
    | some p => src.filter p.eval
  let ordered :=
    match q.ordering with
    | none => filtered
    | some ka => sortRows ka.1 ka.2 filtered
  match q.pagination with
  | none => ordered
  | some pn => (ordered.drop ((pn.1 - 1) * pn.2)).take pn.2

instance {ε α : Type} [DecidableEq ε] [DecidableEq α] : DecidableEq (Except ε α) := fun a b =>
  match a, b with
  | Except.ok x, Except.ok y =>
    if h : x = y then isTrue (by rw [h]) else isFalse (by intro hc; cases hc; exact h rfl)
  | Except.error x, Except.error y =>
    if h : x = y then isTrue (by rw [h]) else isFalse (by intro hc; cases hc; exact h rfl)
  | Except.ok _, Except.error _ => isFalse (by intro hc; cases hc)
  | Except.error _, Except.ok _ => isFalse (by intro hc; cases hc)

/-- Python exceptions that can escape the modelled methods. -/
inductive PyExn where
  | attributeError
  | typeError
  | exception (msg : String)
  | handlerError (msg : String)
deriving Repr, DecidableEq

/-- The mutable per-widget-instance session state set up in
`ListView.__init__` (lines 65-76 of list.py). -/
structure ListState (ρ : Type) where
  search_text : Option String
  sort_field : Option String
  sort_order : Nat
  page : Nat
  count : Nat
  objects : List ρ
  num_per_page : Nat
deriving Repr, DecidableEq

/-- Widget configuration: `self.query`, the static `self.fields`
attribute, the value returned by `await self.get_fields()` (equal to
`fields` unless a subclass overrides `get_fields`), and
`await self.get_actions()`. -/
structure ListView (ρ : Type) where
  query : Option Query
  fields : List Field
  getFields : List Field
  actions : List ActionDesc
deriving Repr, DecidableEq

/-- The `num_pages` property: `int(math.ceil(self.count / self.num_per_page))`
(exact ceiling division). -/
def ListState.num_pages (s : ListState ρ) : Nat :=
  (s.count + s.num_per_page - 1) / s.num_per_page

/-- The `order` property (lines 90-96): the sort column and direction, `none`
when no sort column is set; the direction is ascending exactly when
`sort_order` is truthy. -/
def ListState.order (s : ListState ρ) : Option (String × Bool) :=
  match s.sort_field with
  | none => none
  | some f => if s.sort_order ≠ 0 then some (f, true) else some (f, false)

/-- Source `_first_page(self, player, ...)`. -/
def ListState.first_page (s : ListState ρ) (_player : String) : ListState ρ :=
  { s with page := 1 }

/-- Source `_last_page(self, player, ...)`: `self.page = self.num_pages`. -/
def ListState.last_page (s : ListState ρ) (_player : String) : ListState ρ :=
  { s with page := s.num_pages }

/-- Source `_next_page(self, player, ...)`. -/
def ListState.next_page (s : ListState ρ) (_player : String) : ListState ρ :=
  if s.page + 1 ≤ s.num_pages then { s with page := s.page + 1 } else s

/-- Source `_next_10_pages(self, player, ...)`. -/
def ListState.next_10_pages (s : ListState ρ) (_player : String) : ListState ρ :=
  if s.page + 10 ≤ s.num_pages then { s with page := s.page + 10 } else s

/-- Source `_prev_page(self, player, ...)`: `if self.page - 1 > 0`. -/
def ListState.prev_page (s : ListState ρ) (_player : String) : ListState ρ :=
  if s.page - 1 > 0 then { s with page := s.page - 1 } else s

/-- Source `_prev_10_pages(self, player, ...)`. -/
def ListState.prev_10_pages (s : ListState ρ) (_player : String) : ListState ρ :=
  if s.page - 10 > 0 then { s with page := s.page - 10 } else s

/-- Source `_search(self, player, _, values, ...)` with the submitted text
`values[0]['Value']`: a non-empty text different from the placeholder
`"Search..."` is stored, anything else clears the filter. -/
def ListState.search_event (s : ListState ρ) (_player : String) (text : String) :
    ListState ρ :=
  if 0 < text.length ∧ text ≠ "Search..." then
    { s with search_text := some text }
  else
    { s with search_text := none }

/-- Which kind of item click an identifier encodes: `list_body_r_c`
(field handler) or `list_action_r_a` (action handler). -/
inductive Trigger where
  | body
  | action
deriving Repr, DecidableEq

/-- Observable outcome of one `handle_catch_all` call: the session state
afterwards, whether `logger.warning` fired, whether `refresh` was
triggered, and the user handlers invoked (trigger, descriptor index,
resolved row instance). -/
structure RouterResult (ρ : Type) where
  state : ListState ρ
  warned : Bool
  refreshed : Bool
  invocations : List (Trigger × Nat × ρ)
deriving Repr, DecidableEq

/-- Strip `p` from the front of `s`; `none` when `p` is not a prefix of
`s`.  Models `action.startswith(...)` plus positioning past the prefix. -/
def stripPre (p s : List Char) : Option (List Char) :=
  match p, s with
  | [], rest => some rest
  | _ :: _, [] => none
  | a :: ps, b :: ss => if a = b then stripPre ps ss else none

/-- Numeric value of a digit string. -/
def digitsVal (l : List Char) : Nat :=
  l.foldl (fun n c => n * 10 + (c.toNat - 48)) 0

/-- Match the anchored group `([0-9]+)` against a whole suffix, as in
`re.search('^list_header_([0-9]+)$', action)`: the suffix must be a
non-empty digit string. -/
def parseNum (l : List Char) : Option Nat :=
  if l ≠ [] ∧ l.all Char.isDigit then some (digitsVal l) else none

/-- Split on `'_'` (the separator of `^...([0-9]+)_([0-9]+)$`). -/
def splitUnderscore : List Char → List (List Char)
  | [] => [[]]
  | c :: cs =>
    let rest := splitUnderscore cs
    if c = '_' then [] :: rest
    else
      match rest with
      | r :: rs => (c :: r) :: rs
      | [] => [[c]]

/-- Match the anchored `([0-9]+)_([0-9]+)` against a whole suffix: exactly
one underscore separating two non-empty digit strings. -/
def parsePair (l : List Char) : Option (Nat × Nat) :=
  match splitUnderscore l with
  | [a, b] =>
    match parseNum a, parseNum b with
    | some r, some i => some (r, i)
    | _, _ => none
  | _ => none

/-- The characters of the `list_header_` identifier prefix. -/
def headerPre : List Char := "list_header_".toList

/-- The characters of the `list_body_` identifier prefix. -/
def bodyPre : List Char := "list_body_".toList

/-- The characters of the `list_action_` identifier prefix. -/
def actionPre : List Char := "list_action_".toList

/-- The sort-column update of a header click (lines 118-128): toggle
ascending to descending on the current column, clear on the third click,
start ascending on any other column. -/
def headerSortUpdate (s : ListState ρ) (col : String) : ListState ρ :=
  match s.sort_field with
  | some cur =>
    if cur = col then
      if s.sort_order = 1 then { s with sort_order := 0 }
      else { s with sort_field := none, sort_order := 0 }
    else { s with sort_field := some col, sort_order := 1 }
  | none => { s with sort_field := some col, sort_order := 1 }

/-- The `list_header_N` branch of `handle_catch_all` (lines 100-137).
A suffix not matching `([0-9]+)` leaves `re.search` returning `None`, so
the following `match.groups()` raises an uncaught `AttributeError`.
An out-of-range column index raises inside the `try` and is logged as a
warning.  A column that is not sortable or has a falsy index is silently
ignored.  Otherwise the sort state is updated and a refresh triggered. -/
def ListView.handleHeader (v : ListView ρ) (s : ListState ρ) (suffix : List Char) :
    Except PyExn (RouterResult ρ) :=
  match parseNum suffix with
  | none => Except.error PyExn.attributeError
  | some col =>
    match v.getFields[col]? with
    | none => Except.ok ⟨s, true, false, []⟩
    | some f =>
      match f.sorting, f.index with
      | true, some key => Except.ok ⟨headerSortUpdate s key, false, true, []⟩
      | _, _ => Except.ok ⟨s, false, false, []⟩

/-- Does the clicked descriptor carry an `'action'` entry?  (`field =
(await self.get_fields())[idx]` / `(await self.get_actions())[idx]`
followed by `field['action']`; a missing descriptor or missing key raises
inside the `try`.) -/
def ListView.hasHandlerAt (v : ListView ρ) (t : Trigger) (idx : Nat) : Bool :=
  match t with
  | Trigger.body =>
    match v.getFields[idx]? with
    | some f => f.hasAction
    | none => false
  | Trigger.action =>
    match v.actions[idx]? with
    | some a => a.hasAction
    | none => false

/-- The `list_body_R_C` / `list_action_R_A` branch of `handle_catch_all`
(lines 139-166).  A suffix not matching the regex leads to
`match.groups()` on `None`: uncaught `AttributeError`.  Failures of the
descriptor lookup, of `field['action']` or of `self.objects[row]` are
caught and logged as a warning.  On success the handler is called once
with the resolved instance; an exception it raises is not caught. -/
def ListView.handleItem (v : ListView ρ) (s : ListState ρ)
    (handler : Trigger → Nat → ρ → Except String Unit)
    (t : Trigger) (suffix : List Char) : Except PyExn (RouterResult ρ) :=
  match parsePair suffix with
  | none => Except.error PyExn.attributeError
  | some ri =>
    match v.hasHandlerAt t ri.2, s.objects[ri.1]? with
    | true, some inst =>
      match handler t ri.2 inst with
      | Except.ok _ => Except.ok ⟨s, false, false, [(t, ri.2, inst)]⟩
      | Except.error e => Except.error (PyExn.handlerError e)
    | _, _ => Except.ok ⟨s, true, false, []⟩

/-- Classification of the non-header identifiers: `list_body_` before
`list_action_`, as in the source's `elif` plus inner `if`. -/
def itemParts (a : List Char) : Option (Trigger × List Char) :=
  match stripPre bodyPre a with
  | some suffix => some (Trigger.body, suffix)
  | none =>
    match stripPre actionPre a with
    | some suffix => some (Trigger.action, suffix)
    | none => none

/-- Source `handle_catch_all(self, player, action, values)` (lines 98-166): the
header branch, then the body/action branch, and a silent fall-through for
every other identifier. -/
def ListView.handle_catch_all (v : ListView ρ) (s : ListState ρ)
    (handler : Trigger → Nat → ρ → Except String Unit)
    (act : String) : Except PyExn (RouterResult ρ) :=
  match stripPre headerPre act.toList with
  | some suffix => v.handleHeader s suffix
  | none =>
    match itemParts act.toList with
    | some ts => v.handleItem s handler ts.1 ts.2
    | none => Except.ok ⟨s, false, false, []⟩

/-- Source `get_query(self)` (lines 210-213): the configured query, or an
`Exception` when none is configured. -/
def ListView.get_query (v : ListView ρ) : Except PyExn Query :=
  match v.query with
  | some q => Except.ok q
  | none => Except.error (PyExn.exception "get_query() or self.query is empty!")

/-- One step of the `apply_filter` loop body (lines 218-220): a searchable
field contributes `orwhere(contains)`; `getattr(self.model, None)` for a
searchable field with a falsy index raises `TypeError`. -/
def filterStep (t : String) (q : Query) (f : Field) : Except PyExn Query :=
  if f.searching then
    match f.index with
    | some i => Except.ok (q.orwhere (Pred.contains i t))
    | none => Except.error PyExn.typeError
  else Except.ok q

/-- The `for field in self.fields` loop of `apply_filter`, accumulating
`query`; an exception raised by a step aborts the loop (and
`apply_filter`) with that exception. -/
def filterLoop (t : String) (q : Query) : List Field → Except PyExn Query
  | [] => Except.ok q
  | f :: fs =>
    match filterStep t q f with
    | Except.ok q1 => filterLoop t q1 fs
    | Except.error e => Except.error e

/-- Source `apply_filter(self, query)` (lines 215-221): pass-through on a falsy
`search_text`, otherwise run the loop over the static `self.fields`. -/
def ListView.apply_filter (v : ListView ρ) (search_text : Option String)
    (q : Query) : Except PyExn Query :=
  match search_text with
  | none => Except.ok q
  | some t =>
    if t = "" then Except.ok q
    else filterLoop t q v.fields

/-- Source `apply_ordering(self, query)` (lines 223-226). -/
def ListState.apply_ordering (s : ListState ρ) (q : Query) : Query :=
  match s.order with
  | none => q
  | some o => q.order_by o

/-- Source `apply_pagination(self, query)` (lines 228-231): count the query
before pagination is applied, then paginate. -/
def ListState.apply_pagination (s : ListState ρ) (src : List Row) (q : Query) :
    Nat × Query :=
  ((execQuery src q).length, q.paginate s.page s.num_per_page)

/-- Source `get_object_data(self)` (lines 233-244): the pipeline
query → filter → ordering → pagination → execute, updating `self.count`
and `self.objects`.  `src` is the concrete table behind the ORM. -/
def ListView.get_object_data (v : ListView Row) (s : ListState Row)
    (src : List Row) : Except PyExn (ListState Row) :=
  match v.get_query with
  | Except.error e => Except.error e
  | Except.ok q0 =>
    match v.apply_filter s.search_text q0 with
    | Except.error e => Except.error e
    | Except.ok q1 =>
      let q2 := s.apply_ordering q1
      let cq := s.apply_pagination src q2
      let objs := execQuery src cq.2
      Except.ok { s with count := cq.1, objects := objs }

/-- The column descriptors put into the render context by
`get_context_data` (line 252): `fields = await self.get_fields()`. -/
def ListView.renderedFields (v : ListView ρ) : List Field :=
  v.getFields

/-- The session-state components a viewer observes through
`get_object_data` / `get_context_data` (`'search': self.search_text`,
`'order'`, `'count'`, `'page'`): the same instance attributes are read
whichever player the context is rendered for. -/
def ListState.observedState (s : ListState ρ) (_player : String) :
    Option String × Option String × Nat × Nat :=
  (s.search_text, s.sort_field, s.page, s.count)

/-- The observable sort state of a session (the spec's `Unsorted` /
`SortedAscending(c)` / `SortedDescending(c)`), read off the state exactly
as the `order` property does: no sort column means unsorted, otherwise a
truthy `sort_order` means ascending. -/
inductive SortView where
  | unsorted
  | ascending (c : String)
  | descending (c : String)
deriving Repr, DecidableEq

/-- Sort state of a session state. -/
def sortStateOf (s : ListState ρ) : SortView :=
  match s.sort_field with
  | none => SortView.unsorted
  | some c => if s.sort_order ≠ 0 then SortView.ascending c else SortView.descending c

/-- The source keys of the searchable columns, in column order (the
predicates `apply_filter` OR-combines when every searchable column has a
source key). -/
def searchKeys (fields : List Field) : List String :=
  fields.filterMap (fun f => if f.searching then f.index else none)

/- Concrete instances used by counterexamples and witnesses. -/

/-- A handler that always succeeds. -/
def okHandler : Trigger → Nat → Nat → Except String Unit := fun _ _ _ => Except.ok ()

/-- A handler that raises. -/
def badHandler : Trigger → Nat → Nat → Except String Unit := fun _ _ _ => Except.error "boom"

/-- A sortable, searchable column descriptor over source key `name`. -/
def fieldName : Field := ⟨"Name", some "name", true, true, true⟩

/-- A searchable column descriptor with a null source key. -/
def fieldNoKey : Field := ⟨"Icon", none, true, false, false⟩

/-- An unconstrained base query. -/
def qEmpty : Query := ⟨none, none, none⟩

/-- A demo widget: one sortable/searchable column, two row actions. -/
def vDemo : ListView Nat :=
  ⟨some qEmpty, [fieldName], [fieldName], [⟨"Delete", true⟩, ⟨"Rename", true⟩]⟩

/-- A widget whose only column is not sortable. -/
def vNoKey : ListView Nat := ⟨some qEmpty, [fieldNoKey], [fieldNoKey], []⟩

/-- A fresh session state with five materialized rows. -/
def sDemo : ListState Nat := ⟨none, none, 1, 1, 0, [10, 11, 12, 13, 14], 20⟩

/-- A fresh session state over an empty result set (`count = 0`). -/
def sEmptyList : ListState Nat := ⟨none, none, 1, 1, 0, [], 20⟩

/-- A session state currently sorted ascending on `name`. -/
def sAsc : ListState Nat := ⟨none, some "name", 1, 1, 0, [], 20⟩

/-- A session state on page 2 of 45 rows at 20 per page. -/
def s45 : ListState Nat := ⟨none, none, 1, 2, 45, [], 20⟩

/-- A two-row table. -/
def src8 : List Row := [[("name", "x")], [("name", "zz")]]

/-- A widget over an unconstrained base query with one searchable column. -/
def v8 : ListView Row := ⟨some qEmpty, [fieldName], [fieldName], []⟩

/-- The same widget, but over a base query that already has a WHERE
clause (`name = 'x'`). -/
def v8c : ListView Row := ⟨some ⟨some (Pred.eq "name" "x"), none, none⟩, [fieldName], [fieldName], []⟩

/-- A session state searching for `zz`. -/
def s8 : ListState Row := ⟨some "zz", none, 1, 1, 0, [], 20⟩

/-- Result of the pipeline for `v8`/`s8` over `src8`. -/
def s8run : ListState Row := { s8 with count := 1, objects := [[("name", "zz")]] }

/-- Result of the pipeline for `v8` over `src8` with the filter cleared. -/
def s8none : ListState Row := { s8 with search_text := none, count := 2, objects := src8 }

/- Helper lemmas. -/

theorem strLenPos {t : String} (h : t ≠ "") : 0 < t.length := by
  cases t with
  | mk l =>
    cases l with
    | nil => exact absurd rfl h
    | cons c cs => simp [String.length]

theorem length_insertRow (key : String) (asc : Bool) (r : Row) :
    ∀ l : List Row, (insertRow key asc r l).length = l.length + 1 := by
  intro l
  induction l with
  | nil => rfl
  | cons x xs ih =>
    unfold insertRow
    split <;> (split <;> simp [ih])

theorem length_sortRows (key : String) (asc : Bool) :
    ∀ l : List Row, (sortRows key asc l).length = l.length := by
  intro l
  induction l with
  | nil => rfl
  | cons x xs ih =>
    show (insertRow key asc x (sortRows key asc xs)).length = xs.length + 1
    rw [length_insertRow, ih]

theorem execQuery_nopage_length (src : List Row) (q : Query)
    (h : q.pagination = none) :
    (execQuery src q).length =
      (match q.whereClause with
       | none => src
       | some p => src.filter p.eval).length := by
  unfold execQuery
  rw [h]
  cases hq : q.ordering with
  | none => rfl
  | some ka => exact length_sortRows ka.1 ka.2 _

theorem execQuery_nopage_le (src : List Row) (q : Query)
    (h : q.pagination = none) :
    (execQuery src q).length ≤ src.length := by
  rw [execQuery_nopage_length src q h]
  cases hw : q.whereClause with
  | none => exact le_refl _
  | some p => exact List.length_filter_le _ _

theorem filterStep_preserves {t : String} {q q1 : Query} {f : Field}
    (h : filterStep t q f = Except.ok q1) :
    q1.ordering = q.ordering ∧ q1.pagination = q.pagination := by
  unfold filterStep at h
  split at h
  · split at h
    · cases h
      exact ⟨rfl, rfl⟩
    · cases h
  · cases h
    exact ⟨rfl, rfl⟩

theorem filterLoop_preserves (t : String) :
    ∀ (fs : List Field) (q q1 : Query),
      filterLoop t q fs = Except.ok q1 →
      q1.ordering = q.ordering ∧ q1.pagination = q.pagination := by
  intro fs
  induction fs with
  | nil =>
    intro q q1 h
    cases h
    exact ⟨rfl, rfl⟩
  | cons f fs ih =>
    intro q q1 h
    unfold filterLoop at h
    cases hs : filterStep t q f with
    | ok q2 =>
      rw [hs] at h
      have h2 := ih q2 q1 h
      have h1 := filterStep_preserves hs
      exact ⟨h2.1.trans h1.1, h2.2.trans h1.2⟩
    | error e =>
      rw [hs] at h
      cases h

theorem apply_filter_preserves {ρ : Type} (v : ListView ρ) (st : Option String)
    {q q1 : Query} (h : v.apply_filter st q = Except.ok q1) :
    q1.ordering = q.ordering ∧ q1.pagination = q.pagination := by
  cases st with
  | none =>
    cases h
    exact ⟨rfl, rfl⟩
  | some t =>
    simp only [ListView.apply_filter] at h
    split at h
    · cases h
      exact ⟨rfl, rfl⟩
    · exact filterLoop_preserves t v.fields q q1 h

theorem apply_ordering_preserves {ρ : Type} (s : ListState ρ) (q : Query) :
    (s.apply_ordering q).whereClause = q.whereClause ∧
      (s.apply_ordering q).pagination = q.pagination := by
  unfold ListState.apply_ordering
  cases s.order with
  | none => exact ⟨rfl, rfl⟩
  | some o => exact ⟨rfl, rfl⟩

theorem filterLoop_ok (t : String) :
    ∀ (fs : List Field) (q : Query),
      (∀ f ∈ fs, f.searching = true → f.index ≠ none) →
      filterLoop t q fs =
        Except.ok (List.foldl (fun qq i => qq.orwhere (Pred.contains i t)) q
          (searchKeys fs)) := by
  intro fs
  induction fs with
  | nil => intro q _; rfl
  | cons f fs ih =>
    intro q h
    unfold filterLoop
    cases hf : f.searching with
    | true =>
      cases hidx : f.index with
      | none => exact absurd hidx (h f (List.mem_cons_self f fs) hf)
      | some i =>
        have hstep : filterStep t q f = Except.ok (q.orwhere (Pred.contains i t)) := by
          unfold filterStep
          rw [hidx]
          simp [hf]
        rw [hstep]
        change filterLoop t (q.orwhere (Pred.contains i t)) fs = _
        rw [ih (q.orwhere (Pred.contains i t)) (fun g hg => h g (List.mem_cons_of_mem f hg))]
        simp [searchKeys, hf, hidx]
    | false =>
      have hstep : filterStep t q f = Except.ok q := by
        unfold filterStep
        simp [hf]
      rw [hstep]
      change filterLoop t q fs = _
      rw [ih q (fun g hg => h g (List.mem_cons_of_mem f hg))]
      simp [searchKeys, hf]

/- Claim theorems. -/

/-- Claim C1 (code bug exhibit): with `totalCount = 0` the code's
`_last_page` sets `page` to `num_pages = ceil(0/20) = 0`, not to the `1`
the specification requires. -/
theorem last_page_empty_sets_page_zero :
    sEmptyList.num_pages = 0
  ∧ (sEmptyList.last_page "viewer").page = 0
  ∧ ¬ (sEmptyList.last_page "viewer").page = 1 := by decide

/-- Claim C2 (counterexample): session state lives on the widget instance,
so a search performed by viewer `alice` changes the search text observed
by viewer `bob` on the same widget instance. -/
theorem viewer_state_not_isolated :
    (sEmptyList.search_event "alice" "abc").observedState "bob"
      ≠ sEmptyList.observedState "bob" := by decide

/-- Claim C2 (amended): there is exactly one session state per widget
instance, shared by all viewers: what a viewer observes does not depend
on the viewer, and the state mutation an operation performs does not
depend on which viewer triggered it — so one viewer's operation changes
the state observed by every viewer of that instance. -/
theorem session_state_shared_across_viewers {ρ : Type} (s : ListState ρ)
    (p q t : String) :
    s.observedState p = s.observedState q
  ∧ s.search_event p t = s.search_event q t
  ∧ s.first_page p = s.first_page q
  ∧ s.last_page p = s.last_page q
  ∧ s.next_page p = s.next_page q
  ∧ s.next_10_pages p = s.next_10_pages q
  ∧ s.prev_page p = s.prev_page q
  ∧ s.prev_10_pages p = s.prev_10_pages q :=
  ⟨rfl, rfl, rfl, rfl, rfl, rfl, rfl, rfl⟩

/-- Claim C3 (code bug exhibit): an action identifier whose suffix fails
the regex (`list_header_x`, `list_body_4_x`) makes `re.search` return
`None`, so the unguarded `match.groups()` raises an uncaught
`AttributeError` that propagates to the transport layer — while a
well-formed but out-of-range click (`list_body_99_0` with five rows) is
caught, logged as a warning, and leaves the session state unchanged. -/
theorem handle_malformed_action_crashes :
    vDemo.handle_catch_all sDemo okHandler "list_header_x"
        = Except.error PyExn.attributeError
  ∧ vDemo.handle_catch_all sDemo okHandler "list_body_4_x"
        = Except.error PyExn.attributeError
  ∧ vDemo.handle_catch_all sDemo okHandler "list_body_99_0"
        = Except.ok ⟨sDemo, true, false, []⟩ := by decide

theorem sortStateOf_none {ρ : Type} {s : ListState ρ} (hsf : s.sort_field = none) :
    sortStateOf s = SortView.unsorted := by
  unfold sortStateOf
  rw [hsf]

theorem sortStateOf_some {ρ : Type} {s : ListState ρ} {c : String}
    (hsf : s.sort_field = some c) :
    sortStateOf s =
      if s.sort_order ≠ 0 then SortView.ascending c else SortView.descending c := by
  unfold sortStateOf
  rw [hsf]

theorem sortStateOf_unsorted_iff {ρ : Type} {s : ListState ρ} :
    sortStateOf s = SortView.unsorted ↔ s.sort_field = none := by
  cases hsf : s.sort_field with
  | none => simp [sortStateOf_none hsf]
  | some c =>
    rw [sortStateOf_some hsf]
    by_cases ho : s.sort_order = 0 <;> simp [ho]

theorem sortStateOf_ascending_iff {ρ : Type} {s : ListState ρ} {c : String} :
    sortStateOf s = SortView.ascending c ↔ s.sort_field = some c ∧ s.sort_order ≠ 0 := by
  cases hsf : s.sort_field with
  | none => simp [sortStateOf_none hsf]
  | some d =>
    rw [sortStateOf_some hsf]
    by_cases ho : s.sort_order = 0 <;> simp [ho]

theorem sortStateOf_descending_iff {ρ : Type} {s : ListState ρ} {c : String} :
    sortStateOf s = SortView.descending c ↔ s.sort_field = some c ∧ s.sort_order = 0 := by
  cases hsf : s.sort_field with
  | none => simp [sortStateOf_none hsf]
  | some d =>
    rw [sortStateOf_some hsf]
    by_cases ho : s.sort_order = 0 <;> simp [ho]

/-- Claim C4: the header-click sort toggle is a 3-cycle per column
(Unsorted → SortedAscending(c) → SortedDescending(c) → Unsorted), a click
on a different sortable column always restarts at SortedAscending, and a
click on a non-sortable or null-source-key column is ignored by the
router without changing any state.  (`sort_order` is only ever assigned
`0` or `1` by the code, hence that invariant as a hypothesis where the
toggle inspects `sort_order == 1`.) -/
theorem sort_toggle_three_cycle {ρ : Type} (v : ListView ρ) (s : ListState ρ)
    (handler : Trigger → Nat → ρ → Except String Unit) (act : String)
    (suf : List Char) (col : Nat) (f : Field) (key : String) :
    (sortStateOf s = SortView.unsorted →
       sortStateOf (headerSortUpdate s key) = SortView.ascending key)
  ∧ ((s.sort_order = 0 ∨ s.sort_order = 1) → sortStateOf s = SortView.ascending key →
       sortStateOf (headerSortUpdate s key) = SortView.descending key)
  ∧ (sortStateOf s = SortView.descending key →
       sortStateOf (headerSortUpdate s key) = SortView.unsorted)
  ∧ (sortStateOf s = SortView.unsorted →
       sortStateOf (headerSortUpdate (headerSortUpdate (headerSortUpdate s key) key) key)
         = SortView.unsorted)
  ∧ (s.sort_field ≠ some key →
       sortStateOf (headerSortUpdate s key) = SortView.ascending key)
  ∧ (stripPre headerPre act.toList = some suf → parseNum suf = some col →
       v.getFields[col]? = some f → f.sorting = true → f.index = some key →
       v.handle_catch_all s handler act
         = Except.ok ⟨headerSortUpdate s key, false, true, []⟩)
  ∧ (stripPre headerPre act.toList = some suf → parseNum suf = some col →
       v.getFields[col]? = some f → (f.sorting = false ∨ f.index = none) →
       v.handle_catch_all s handler act = Except.ok ⟨s, false, false, []⟩) := by
  refine ⟨?_, ?_, ?_, ?_, ?_, ?_, ?_⟩
  · intro h
    have hsf := sortStateOf_unsorted_iff.mp h
    simp [headerSortUpdate, hsf, sortStateOf]
  · intro hinv h
    obtain ⟨hsf, hso⟩ := sortStateOf_ascending_iff.mp h
    have h1 : s.sort_order = 1 := by
      cases hinv with
      | inl h0 => exact absurd h0 hso
      | inr h1 => exact h1
    simp [headerSortUpdate, hsf, h1, sortStateOf]
  · intro h
    obtain ⟨hsf, hso⟩ := sortStateOf_descending_iff.mp h
    simp [headerSortUpdate, hsf, hso, sortStateOf]
  · intro h
    have hsf := sortStateOf_unsorted_iff.mp h
    simp [headerSortUpdate, hsf, sortStateOf]
  · intro hne
    cases hsf : s.sort_field with
    | none => simp [headerSortUpdate, hsf, sortStateOf]
    | some cur =>
      have hcur : cur ≠ key := by
        intro hc
        exact hne (hsf.trans (by rw [hc]))
      simp [headerSortUpdate, hsf, hcur, sortStateOf]
  · intro h1 h2 h3 h4 h5
    simp only [ListView.handle_catch_all, h1]
    simp only [ListView.handleHeader, h2, h3, h4, h5]
  · intro h1 h2 h3 h4
    simp only [ListView.handle_catch_all, h1]
    simp only [ListView.handleHeader, h2, h3]
    cases h4 with
    | inl hs => simp [hs]
    | inr hidx =>
      cases hs : f.sorting <;> simp [hs, hidx]

/-- Claim C4 witness: the toggle and router facts at concrete inputs. -/
theorem sort_toggle_three_cycle_witness :
    sortStateOf (headerSortUpdate sDemo "name") = SortView.ascending "name"
  ∧ sortStateOf (headerSortUpdate sAsc "name") = SortView.descending "name"
  ∧ sortStateOf (headerSortUpdate (headerSortUpdate (headerSortUpdate sDemo "name") "name") "name")
      = SortView.unsorted
  ∧ sortStateOf (headerSortUpdate sAsc "author") = SortView.ascending "author"
  ∧ vDemo.handle_catch_all sDemo okHandler "list_header_0"
      = Except.ok ⟨headerSortUpdate sDemo "name", false, true, []⟩
  ∧ vNoKey.handle_catch_all sDemo okHandler "list_header_0"
      = Except.ok ⟨sDemo, false, false, []⟩ := by
  have h1 := sort_toggle_three_cycle vDemo sDemo okHandler "list_header_0"
    ("0".toList) 0 fieldName "name"
  have h2 := sort_toggle_three_cycle vDemo sAsc okHandler "list_header_0"
    ("0".toList) 0 fieldName "name"
  have h3 := sort_toggle_three_cycle vDemo sAsc okHandler "list_header_0"
    ("0".toList) 0 fieldName "author"
  have h4 := sort_toggle_three_cycle vNoKey sDemo okHandler "list_header_0"
    ("0".toList) 0 fieldNoKey "name"
  exact ⟨h1.1 (by decide),
         h2.2.1 (by decide) (by decide),
         h1.2.2.2.1 (by decide),
         h3.2.2.2.2.1 (by decide),
         h1.2.2.2.2.2.1 (by decide) (by decide) (by decide) (by decide) (by decide),
         h4.2.2.2.2.2.2 (by decide) (by decide) (by decide) (Or.inl (by decide))⟩

/-- Claim C5: `next`/`next-10` advance only when the target page does not
exceed `num_pages` and are otherwise a no-op; `prev`/`prev-10` go back
only when the target page stays at least 1 and are otherwise a no-op; in
particular with 45 rows at 20 per page (`num_pages = 3`), `first` then
`next-10` leaves the page at 1. -/
theorem pagination_clamping {ρ : Type} (s : ListState ρ) (pl : String) :
    (s.page + 1 ≤ s.num_pages → (s.next_page pl).page = s.page + 1)
  ∧ (¬ s.page + 1 ≤ s.num_pages → s.next_page pl = s)
  ∧ (s.page + 10 ≤ s.num_pages → (s.next_10_pages pl).page = s.page + 10)
  ∧ (¬ s.page + 10 ≤ s.num_pages → s.next_10_pages pl = s)
  ∧ (1 ≤ s.page - 1 → (s.prev_page pl).page = s.page - 1)
  ∧ (¬ 1 ≤ s.page - 1 → s.prev_page pl = s)
  ∧ (1 ≤ s.page - 10 → (s.prev_10_pages pl).page = s.page - 10)
  ∧ (¬ 1 ≤ s.page - 10 → s.prev_10_pages pl = s)
  ∧ s45.num_pages = 3
  ∧ ((s45.first_page "p").next_10_pages "p").page = 1 := by
  refine ⟨?_, ?_, ?_, ?_, ?_, ?_, ?_, ?_, by decide, by decide⟩
  · intro h
    simp [ListState.next_page, h]
  · intro h
    simp [ListState.next_page, h]
  · intro h
    simp [ListState.next_10_pages, h]
  · intro h
    simp [ListState.next_10_pages, h]
  · intro h
    have h1 : 1 < s.page := by omega
    simp [ListState.prev_page, h1]
  · intro h
    have h1 : ¬ 1 < s.page := by omega
    simp [ListState.prev_page, h1]
  · intro h
    have h1 : 10 < s.page := by omega
    simp [ListState.prev_10_pages, h1]
  · intro h
    have h1 : ¬ 10 < s.page := by omega
    simp [ListState.prev_10_pages, h1]

/-- Claim C5 witness: on page 2 of 3 pages, `next` moves to 3, `next-10`
is a no-op, `prev` moves to 1, `prev-10` is a no-op. -/
theorem pagination_clamping_witness :
    (s45.next_page "p").page = 3
  ∧ s45.next_10_pages "p" = s45
  ∧ (s45.prev_page "p").page = 1
  ∧ s45.prev_10_pages "p" = s45 := by
  have h := pagination_clamping (ρ := Nat) s45 "p"
  exact ⟨h.1 (by decide), h.2.2.2.1 (by decide), h.2.2.2.2.1 (by decide),
         h.2.2.2.2.2.2.2.1 (by decide)⟩

/-- Claim C6: submitting the empty string or the placeholder sentinel
`"Search..."` clears `search_text` to null, any other non-empty text is
stored verbatim, and the current page is never changed by a search. -/
theorem search_text_rules {ρ : Type} (s : ListState ρ) (pl text : String) :
    (s.search_event pl "").search_text = none
  ∧ (s.search_event pl "Search...").search_text = none
  ∧ (text ≠ "" → text ≠ "Search..." → (s.search_event pl text).search_text = some text)
  ∧ (s.search_event pl text).page = s.page := by
  refine ⟨?_, ?_, ?_, ?_⟩
  · have h : ¬ (0 < ("" : String).length ∧ ("" : String) ≠ "Search...") := by decide
    simp [ListState.search_event, h]
  · have h : ¬ (0 < ("Search..." : String).length ∧ ("Search..." : String) ≠ "Search...") := by
      decide
    simp [ListState.search_event, h]
  · intro h1 h2
    have hl := strLenPos h1
    unfold ListState.search_event
    rw [if_pos ⟨hl, h2⟩]
  · unfold ListState.search_event
    split <;> rfl

/-- Claim C6 witness: concrete searches on a fresh state. -/
theorem search_text_rules_witness :
    (sDemo.search_event "p" "abc").search_text = some "abc"
  ∧ (sDemo.search_event "p" "").search_text = none
  ∧ (sDemo.search_event "p" "Search...").search_text = none
  ∧ (sDemo.search_event "p" "abc").page = sDemo.page := by
  have h := search_text_rules (ρ := Nat) sDemo "p" "abc"
  exact ⟨h.2.2.1 (by decide) (by decide), h.1, h.2.1, h.2.2.2⟩

theorem searchKeys_nil {fs : List Field} (h : ∀ f ∈ fs, f.searching = false) :
    searchKeys fs = [] := by
  unfold searchKeys
  rw [List.filterMap_eq_nil_iff]
  intro f hf
  simp [h f hf]

/-- Claim C7 (counterexample): a searchable column with a null source key
is not skipped by `apply_filter`: the loop evaluates
`getattr(self.model, None)`, raising `TypeError` instead of returning a
filtered (or pass-through) query. -/
theorem filter_null_sourcekey_raises :
    vNoKey.apply_filter (some "a") qEmpty = Except.error PyExn.typeError := by decide

/-- Claim C7 (amended): the filter passes the query through unchanged on a
null or empty search text, and likewise when no searchable column exists;
otherwise it OR-combines one substring-containment predicate per
searchable column, in column order — but a searchable column with a null
source key raises an error rather than being skipped (see the
counterexample), so the OR-combination form holds when every searchable
column has a source key. -/
theorem filter_or_combines {ρ : Type} (v : ListView ρ) (t : String) (q : Query)
    (st : Option String) :
    v.apply_filter none q = Except.ok q
  ∧ v.apply_filter (some "") q = Except.ok q
  ∧ (t ≠ "" → (∀ f ∈ v.fields, f.searching = true → f.index ≠ none) →
       v.apply_filter (some t) q =
         Except.ok (List.foldl (fun qq i => qq.orwhere (Pred.contains i t)) q
           (searchKeys v.fields)))
  ∧ ((∀ f ∈ v.fields, f.searching = false) → v.apply_filter st q = Except.ok q) := by
  refine ⟨rfl, ?_, ?_, ?_⟩
  · unfold ListView.apply_filter
    dsimp only
    rw [if_pos rfl]
  · intro ht hidx
    unfold ListView.apply_filter
    dsimp only
    rw [if_neg ht]
    exact filterLoop_ok t v.fields q hidx
  · intro hns
    cases st with
    | none => rfl
    | some t2 =>
      unfold ListView.apply_filter
      dsimp only
      by_cases h2 : t2 = ""
      · rw [if_pos h2]
      · rw [if_neg h2]
        rw [filterLoop_ok t2 v.fields q (fun f hf hs => absurd hs (by simp [hns f hf]))]
        rw [searchKeys_nil hns]
        rfl

/-- Claim C7 witness: with one searchable `name` column, a search for
`zz` OR-combines exactly the one containment predicate. -/
theorem filter_or_combines_witness :
    v8.apply_filter (some "zz") qEmpty
      = Except.ok (qEmpty.orwhere (Pred.contains "name" "zz"))
  ∧ v8.apply_filter none qEmpty = Except.ok qEmpty := by
  have h := filter_or_combines (ρ := Row) v8 "zz" qEmpty none
  exact ⟨h.2.2.1 (by decide) (by decide), h.1⟩

theorem get_object_data_eq (v : ListView Row) (s : ListState Row) (src : List Row) :
    v.get_object_data s src =
      match v.get_query with
      | Except.error e => Except.error e
      | Except.ok q0 =>
        match v.apply_filter s.search_text q0 with
        | Except.error e => Except.error e
        | Except.ok q1 =>
          Except.ok { s with
            count := (execQuery src (s.apply_ordering q1)).length,
            objects :=
              execQuery src ((s.apply_ordering q1).paginate s.page s.num_per_page) } := rfl

theorem execQuery_paginate_le (src : List Row) (q : Query) (p n : Nat) :
    (execQuery src (q.paginate p n)).length ≤ n := by
  unfold Query.paginate execQuery
  dsimp only
  exact List.length_take_le _ _

/-- Claim C8 (counterexample): search predicates are OR-combined into the
base query's WHERE clause, so with a base query that already has a WHERE
clause (`name = 'x'` over a two-row table) the count under the search
filter `zz` is 2, exceeding the unfiltered count 1 — refuting
`filtered totalCount ≤ unfiltered totalCount` as stated. -/
theorem filtered_count_exceeds_unfiltered :
    (v8c.get_object_data s8 src8).map ListState.count = Except.ok 2
  ∧ (v8c.get_object_data { s8 with search_text := none } src8).map ListState.count
      = Except.ok 1
  ∧ ¬ (2 : Nat) ≤ 1 := by decide

/-- Claim C8 (amended): `totalCount` is computed from the filtered and
ordered query before pagination, so it does not depend on `page` or
`pageSize`; the materialized rows of any run number at most `pageSize`;
and the filtered `totalCount` is ≤ the unfiltered count whenever the base
query carries no WHERE clause of its own (with a pre-constrained base
query OR-combination can exceed it, see the counterexample). -/
theorem count_before_pagination (v : ListView Row) (s : ListState Row)
    (src : List Row) (p n : Nat) :
    ((v.get_object_data { s with page := p, num_per_page := n } src).map ListState.count
       = (v.get_object_data s src).map ListState.count)
  ∧ (∀ s1, v.get_object_data s src = Except.ok s1 →
       s1.objects.length ≤ s.num_per_page)
  ∧ (∀ q0 s1 s2, v.query = some q0 → q0.whereClause = none → q0.pagination = none →
       v.get_object_data s src = Except.ok s1 →
       v.get_object_data { s with search_text := none } src = Except.ok s2 →
       s1.count ≤ s2.count) := by
  refine ⟨?_, ?_, ?_⟩
  · rw [get_object_data_eq, get_object_data_eq]
    cases hq : v.get_query with
    | error e => rfl
    | ok q0 =>
      dsimp only
      cases hf : v.apply_filter s.search_text q0 with
      | error e => rfl
      | ok q1 => rfl
  · intro s1 h
    rw [get_object_data_eq] at h
    cases hq : v.get_query with
    | error e =>
      rw [hq] at h
      cases h
    | ok q0 =>
      rw [hq] at h
      dsimp only at h
      cases hf : v.apply_filter s.search_text q0 with
      | error e =>
        rw [hf] at h
        cases h
      | ok q1 =>
        rw [hf] at h
        cases h
        exact execQuery_paginate_le src _ s.page s.num_per_page
  · intro q0 s1 s2 hq hw hp h1 h2
    have hget : v.get_query = Except.ok q0 := by
      unfold ListView.get_query
      rw [hq]
    rw [get_object_data_eq, hget] at h1
    rw [get_object_data_eq, hget] at h2
    dsimp only at h1
    dsimp only [ListView.apply_filter] at h2
    cases h2
    cases hf : v.apply_filter s.search_text q0 with
    | error e =>
      rw [hf] at h1
      cases h1
    | ok q1 =>
      rw [hf] at h1
      cases h1
      have hq1p : q1.pagination = none :=
        (apply_filter_preserves v s.search_text hf).2.trans hp
      have hpag1 : (s.apply_ordering q1).pagination = none :=
        (apply_ordering_preserves s q1).2.trans hq1p
      have hle := execQuery_nopage_le src (s.apply_ordering q1) hpag1
      have hp2 : (ListState.apply_ordering { s with search_text := none } q0).pagination
          = none := (apply_ordering_preserves _ q0).2.trans hp
      have hw2 : (ListState.apply_ordering { s with search_text := none } q0).whereClause
          = none := (apply_ordering_preserves _ q0).1.trans hw
      have hc2 : (execQuery src (ListState.apply_ordering { s with search_text := none } q0)).length
          = src.length := by
        rw [execQuery_nopage_length src _ hp2, hw2]
      dsimp only
      rw [hc2]
      exact hle

/-- Claim C8 witness: the three amended facts at a concrete widget,
session and table. -/
theorem count_before_pagination_witness :
    ((v8.get_object_data { s8 with page := 5, num_per_page := 7 } src8).map ListState.count
       = (v8.get_object_data s8 src8).map ListState.count)
  ∧ s8run.objects.length ≤ s8.num_per_page
  ∧ s8run.count ≤ s8none.count := by
  have h := count_before_pagination v8 s8 src8 5 7
  exact ⟨h.1,
         h.2.1 s8run (by decide),
         h.2.2 qEmpty s8run s8none (by decide) (by decide) (by decide) (by decide) (by decide)⟩

/-- Claim C9: a successfully resolved body-click or action-click invokes
the resolved descriptor's handler exactly once with the resolved row
instance (sync and async handlers are dispatched through the same call
site), and an exception raised inside that handler is not caught by the
router — it propagates. -/
theorem item_click_invokes_handler_once {ρ : Type} (v : ListView ρ) (s : ListState ρ)
    (handler : Trigger → Nat → ρ → Except String Unit) (act : String)
    (t : Trigger) (suf : List Char) (row idx : Nat) (inst : ρ)
    (hh : stripPre headerPre act.toList = none)
    (hi : itemParts act.toList = some (t, suf))
    (hp : parsePair suf = some (row, idx))
    (hha : v.hasHandlerAt t idx = true)
    (hrow : s.objects[row]? = some inst) :
    (handler t idx inst = Except.ok () →
       v.handle_catch_all s handler act = Except.ok ⟨s, false, false, [(t, idx, inst)]⟩)
  ∧ (∀ e, handler t idx inst = Except.error e →
       v.handle_catch_all s handler act = Except.error (PyExn.handlerError e)) := by
  constructor
  · intro hok
    simp only [ListView.handle_catch_all, hh, hi]
    simp only [ListView.handleItem, hp, hha, hrow, hok]
  · intro e herr
    simp only [ListView.handle_catch_all, hh, hi]
    simp only [ListView.handleItem, hp, hha, hrow, herr]

/-- Claim C9 witness: `list_action_2_0` on five rows and two actions
invokes action 0 exactly once with row 2's instance; a raising handler
makes the router call itself fail with the handler's exception. -/
theorem item_click_invokes_handler_once_witness :
    vDemo.handle_catch_all sDemo okHandler "list_action_2_0"
        = Except.ok ⟨sDemo, false, false, [(Trigger.action, 0, 12)]⟩
  ∧ vDemo.handle_catch_all sDemo badHandler "list_action_2_0"
        = Except.error (PyExn.handlerError "boom") := by
  have h1 := item_click_invokes_handler_once vDemo sDemo okHandler "list_action_2_0"
    Trigger.action ("2_0".toList) 2 0 12 (by decide) (by decide) (by decide) (by decide)
    (by decide)
  have h2 := item_click_invokes_handler_once vDemo sDemo badHandler "list_action_2_0"
    Trigger.action ("2_0".toList) 2 0 12 (by decide) (by decide) (by decide) (by decide)
    (by decide)
  exact ⟨h1.1 rfl, h2.2 "boom" rfl⟩

/-- Claim C10: `apply_filter` reads the static `fields` attribute, while
the event router and the render context read `get_fields()`: overriding
`get_fields` changes click resolution and the rendered columns but not
the searched columns, and changing `fields` does not affect the router or
the rendered columns. -/
theorem filter_uses_static_fields {ρ : Type} (v : ListView ρ) (g f2 : List Field)
    (st : Option String) (q : Query) (s : ListState ρ)
    (handler : Trigger → Nat → ρ → Except String Unit) (act : String) (idx : Nat) :
    ({ v with getFields := g } : ListView ρ).apply_filter st q = v.apply_filter st q
  ∧ ({ v with fields := f2 } : ListView ρ).handle_catch_all s handler act
      = v.handle_catch_all s handler act
  ∧ ({ v with fields := f2 } : ListView ρ).renderedFields = v.renderedFields
  ∧ ({ v with getFields := g } : ListView ρ).renderedFields = g
  ∧ ({ v with fields := f2 } : ListView ρ).hasHandlerAt Trigger.body idx
      = v.hasHandlerAt Trigger.body idx :=
  ⟨rfl, rfl, rfl, rfl, rfl⟩

end PyPlanet
